import Mathlib

/-!
Shallow embedding of the local-inference supervisor and hardware planner
(`src/main/managers/llama-server.ts` and the hardware manager module).

Strings from the process output stream are modelled as `List Char` so that
every operation is structurally recursive and kernel-evaluable.
-/

set_option maxRecDepth 4000

namespace AiStudio

/-- The double-quote character (written via its code point to keep the
development free of quote-heavy character literals). -/
def quoteChar : Char := Char.ofNat 34

/-- The backslash character. -/
def backslashChar : Char := Char.ofNat 92

/-- The opening curly bracket character. -/
def lbrace : Char := Char.ofNat 123

/-- The closing curly bracket character. -/
def rbrace : Char := Char.ofNat 125

/-- One `data` chunk delivered by the child process's stdout stream. -/
abbrev Chunk := List Char

/-- Embedding of JavaScript `str.split('\n')` on a character list:
returns the (possibly empty) segments between newline characters.
`split` always returns at least one segment. -/
def splitOnNl : List Char → List (List Char)
  | [] => [[]]
  | c :: cs =>
    match splitOnNl cs with
    | [] => [[]]
    | r :: rs => if c = '\n' then [] :: r :: rs else (c :: r) :: rs

/-- JSON insignificant whitespace. -/
def isJsonWs (c : Char) : Bool :=
  c = ' ' || c = Char.ofNat 9 || c = Char.ofNat 10 || c = Char.ofNat 13

/-- Drop leading JSON whitespace. -/
def skipWs (l : List Char) : List Char := l.dropWhile isJsonWs

/-- A JSON value as needed for the engine's log records: flat records whose
values are strings, numeric tokens, or the literals `true`/`false`/`null`.
This is a model of the external `JSON.parse` restricted to the shape of the
engine's newline-delimited log records (which are flat objects). -/
inductive JVal : Type
  | str (s : List Char)
  | num (raw : List Char)
  | lit (raw : List Char)
  deriving DecidableEq

/-- Parse the body of a JSON string after the opening quote, returning the
contents and the remainder after the closing quote. Escape sequences are
modelled as the escaped character itself (the readiness sentinel contains
no escapes, so this does not affect any result below). -/
def parseStr : List Char → Option (List Char × List Char)
  | [] => none
  | c :: cs =>
    if c = quoteChar then some ([], cs)
    else if c = backslashChar then
      match cs with
      | [] => none
      | d :: ds =>
        match parseStr ds with
        | some (s, r) => some (d :: s, r)
        | none => none
    else
      match parseStr cs with
      | some (s, r) => some (c :: s, r)
      | none => none

/-- Characters that may occur in a JSON numeric token. -/
def isNumChar (c : Char) : Bool :=
  c.isDigit || c = '-' || c = '+' || c = '.' || c = 'e' || c = 'E'

/-- Check that `p` is a prefix of `l`. -/
def isPrefixL : List Char → List Char → Bool
  | [], _ => true
  | _ :: _, [] => false
  | a :: as, b :: bs => a = b && isPrefixL as bs

/-- Parse one JSON value (string, number, or `true`/`false`/`null`). -/
def parseVal (l : List Char) : Option (JVal × List Char) :=
  match l with
  | [] => none
  | c :: cs =>
    if c = quoteChar then
      match parseStr cs with
      | some (s, r) => some (.str s, r)
      | none => none
    else if isNumChar c then
      some (.num (c :: cs.takeWhile isNumChar), cs.dropWhile isNumChar)
    else if isPrefixL ['t','r','u','e'] (c :: cs) then
      some (.lit ['t','r','u','e'], (c :: cs).drop 4)
    else if isPrefixL ['f','a','l','s','e'] (c :: cs) then
      some (.lit ['f','a','l','s','e'], (c :: cs).drop 5)
    else if isPrefixL ['n','u','l','l'] (c :: cs) then
      some (.lit ['n','u','l','l'], (c :: cs).drop 4)
    else none

/-- Parse the members of a JSON object (after the opening brace, at the
first key), returning the key/value pairs and the remainder after the
closing brace. Fuelled recursion; the top-level caller supplies enough
fuel for the whole input. -/
def parseMembers : Nat → List Char → Option (List (List Char × JVal) × List Char)
  | 0, _ => none
  | fuel + 1, l =>
    match skipWs l with
    | [] => none
    | c :: cs =>
      if c ≠ quoteChar then none
      else
        match parseStr cs with
        | none => none
        | some (key, r1) =>
          match skipWs r1 with
          | [] => none
          | c2 :: r2 =>
            if c2 ≠ ':' then none
            else
              match parseVal (skipWs r2) with
              | none => none
              | some (v, r3) =>
                match skipWs r3 with
                | [] => none
                | c3 :: r4 =>
                  if c3 = ',' then
                    match parseMembers fuel r4 with
                    | some (ms, rest) => some ((key, v) :: ms, rest)
                    | none => none
                  else if c3 = rbrace then some ([(key, v)], r4)
                  else none

/-- Model of `JSON.parse` on one output line, restricted to flat objects:
succeeds exactly on a whole line that is a JSON object (with optional
surrounding whitespace), returning its key/value pairs. -/
def parseRecord (line : List Char) : Option (List (List Char × JVal)) :=
  match skipWs line with
  | [] => none
  | c :: cs =>
    if c ≠ lbrace then none
    else
      match skipWs cs with
      | [] => none
      | c2 :: cs2 =>
        if c2 = rbrace then
          if (skipWs cs2).isEmpty then some [] else none
        else
          match parseMembers ((c2 :: cs2).length + 1) (c2 :: cs2) with
          | some (ms, rest) => if (skipWs rest).isEmpty then some ms else none
          | none => none

/-- First binding of a key in a parsed record. -/
def lookupKey : List (List Char × JVal) → List Char → Option JVal
  | [], _ => none
  | (k, v) :: rest, key => if k = key then some v else lookupKey rest key

/-- The characters of the field name `message`. -/
def messageKey : List Char := ['m','e','s','s','a','g','e']

/-- The characters of the readiness sentinel `HTTP server listening`. -/
def sentinelChars : List Char :=
  ['H','T','T','P',' ','s','e','r','v','e','r',' ',
   'l','i','s','t','e','n','i','n','g']

/-- The string value of the `message` field of a line, when the line parses
as a record carrying one. -/
def messageOf (line : List Char) : Option (List Char) :=
  match parseRecord line with
  | none => none
  | some ms =>
    match lookupKey ms messageKey with
    | some (.str s) => some s
    | _ => none

/-- Embedding of the readiness test the launch handler applies to one
segment: the segment parses as a record and its `message` field equals
`HTTP server listening` (`message.message == 'HTTP server listening'`). -/
def isSentinelLine (line : List Char) : Bool :=
  match messageOf line with
  | some s => s = sentinelChars
  | none => false

/-- Whether one stdout chunk triggers readiness: the handler splits the
chunk on `'\n'`, skips empty segments, and tests each remaining segment.
There is no carry-over between chunks — the handler in `launchServer`
(`llama-server.ts:131-148`) re-splits each `data` chunk independently and
keeps no buffer of an unterminated trailing segment. -/
def chunkHasSentinel (c : Chunk) : Bool :=
  (splitOnNl c).any (fun l => !l.isEmpty && isSentinelLine l)

/-- One step of the readiness handler over an arriving chunk. Once resolved
the handler has been detached (`process.stdout.off('data', handler)`), so a
later chunk is not inspected and resolution is permanent. -/
def processChunk (resolved : Bool) (c : Chunk) : Bool :=
  if resolved then true else chunkHasSentinel c

/-- Whether the launch outcome has resolved successfully after the given
sequence of stdout chunks, processed in arrival order. -/
def processChunks (chunks : List Chunk) : Bool :=
  chunks.foldl processChunk false

/-! ## Hardware profiler and configuration planner (hardware manager module) -/

namespace Hardware

/-- The `recommended` record of a `HardwareProfile`. -/
structure Recommended where
  gpuLayers : Nat
  cpuThreads : Nat
  contextSize : Nat
  maxModelSizeGB : Nat
  batchSize : Nat
  deriving DecidableEq

/-- Embedding of `calculateOptimalSettings`. Memory is the rounded
whole-GB figure the caller passes, so a `Nat`. `generation` and `variant`
are carried as strings, matching the runtime values that flow through the
TypeScript unions (including values outside the nominal union, which the
source's unchecked casts permit).

`Math.max(4, performanceCores - 2)` on numbers agrees with
`max 4 (pc - 2)` on `Nat`: whenever the subtraction would go negative both
sides yield 4. `Math.floor(totalMemoryGB * 0.6)` agrees with
`3 * totalMemoryGB / 5` on `Nat` for every whole-GB memory size in range:
the double nearest to 0.6 is below 3/5 by ≈2.2e-17, an error far smaller
than the distance from `0.6 * n` to the floor boundary it would have to
cross (and when `3n/5` is exact the product rounds back to it). -/
def calculateOptimalSettings (totalMemoryGB _gpuCores performanceCores : Nat)
    (generation variant : String) : Recommended :=
  let isHighEnd := variant = "Max" || variant = "Ultra"
  let isM4Generation := generation = "M4"
  let gpuLayers :=
    if totalMemoryGB ≥ 128 then 99
    else if totalMemoryGB ≥ 96 then 80
    else if totalMemoryGB ≥ 64 then 60
    else if totalMemoryGB ≥ 32 then 40
    else if totalMemoryGB ≥ 16 then 20
    else 4
  let cpuThreads := max 4 (performanceCores - 2)
  let contextSize :=
    if totalMemoryGB ≥ 128 then 131072
    else if totalMemoryGB ≥ 96 then 65536
    else if totalMemoryGB ≥ 64 then 32768
    else if totalMemoryGB ≥ 32 then 16384
    else if totalMemoryGB ≥ 16 then 8192
    else 4096
  let maxModelSizeGB := 3 * totalMemoryGB / 5
  let batchSize :=
    if isHighEnd && isM4Generation then 2048
    else if isHighEnd then 1024
    else 512
  { gpuLayers := gpuLayers, cpuThreads := cpuThreads,
    contextSize := contextSize, maxModelSizeGB := maxModelSizeGB,
    batchSize := batchSize }

/-- Outcome of one `execSync` probe: the trimmed stdout text, or a thrown
error. -/
inductive ProbeResult : Type
  | ok (out : List Char)
  | err
  deriving DecidableEq

/-- The OS facts the profiler reads (`os.platform()`, `os.arch()`,
`os.cpus()`, memory, and the three `execSync` sysctl probes). Memory is
carried as the already-rounded whole-GB values (`Math.round(bytes/2^30)`);
no claim depends on the byte-to-GB rounding itself. -/
structure OsEnv where
  platform : String
  arch : String
  cpuModel : String
  cpuCount : Nat
  totalMemoryGB : Nat
  availableMemoryGB : Nat
  brandProbe : ProbeResult
  perfProbe : ProbeResult
  effProbe : ProbeResult

/-- Digit characters to a number. -/
def digitsToNat (ds : List Char) : Nat :=
  ds.foldl (fun acc c => acc * 10 + (c.toNat - '0'.toNat)) 0

/-- Model of `parseInt(s, 10) || 0` on sysctl output: leading whitespace is
skipped, the leading digit run is the value, and anything that yields `NaN`
(no leading digits) collapses to 0. Signs are not modelled — the probed
counters are non-negative. -/
def parseIntOr0 (s : List Char) : Nat :=
  let t := s.dropWhile isJsonWs
  let ds := t.takeWhile Char.isDigit
  if ds.isEmpty then 0 else digitsToNat ds

/-- Embedding of `getPerformanceAndEfficiencyCores`: off `darwin` it
reports every logical core as a performance core; on `darwin` it reads the
two `sysctl` per-level counters, and only if a probe throws does it fall
back to an even split of the logical cores. -/
def getPerformanceAndEfficiencyCores (env : OsEnv) : Nat × Nat :=
  if env.platform ≠ "darwin" then (env.cpuCount, 0)
  else
    match env.perfProbe, env.effProbe with
    | .ok p, .ok e => (parseIntOr0 p, parseIntOr0 e)
    | _, _ => (env.cpuCount / 2, env.cpuCount / 2)

/-- Whitespace for the `\s+` of the brand-string pattern. -/
def isWsChar (c : Char) : Bool := isJsonWs c

/-- The characters of `Apple M`, the fixed head of the brand pattern. -/
def appleMPat : List Char := ['A','p','p','l','e',' ','M']

/-- Match the optional `(?:\s+(Pro|Max|Ultra))?` part of the brand
pattern: at least one whitespace character followed by one of the three
variant words (no trailing word boundary is required, as in the source's
regular expression). -/
def matchVariant (l : List Char) : Option String :=
  if (l.takeWhile isWsChar).isEmpty then none
  else
    let rest := l.dropWhile isWsChar
    if isPrefixL ['P','r','o'] rest then some "Pro"
    else if isPrefixL ['M','a','x'] rest then some "Max"
    else if isPrefixL ['U','l','t','r','a'] rest then some "Ultra"
    else none

/-- Try to match `Apple (M\d+)(?:\s+(Pro|Max|Ultra))?` at the head of the
list, returning generation and variant (`base` when the variant group is
absent, as in `match[2] || 'base'`). -/
def matchAppleAt (l : List Char) : Option (String × String) :=
  if isPrefixL appleMPat l then
    let rest := l.drop 7
    let digits := rest.takeWhile Char.isDigit
    if digits.isEmpty then none
    else
      some (String.mk ('M' :: digits),
        (matchVariant (rest.dropWhile Char.isDigit)).getD "base")
  else none

/-- Unanchored search for the brand pattern, i.e. `cpuBrand.match(...)`:
the first position at which the pattern matches wins. -/
def searchAppleM : List Char → Option (String × String)
  | [] => none
  | c :: cs =>
    match matchAppleAt (c :: cs) with
    | some r => some r
    | none => searchAppleM cs

/-- The `GPU_CORES[generation]?.[variant] || 0` table. -/
def gpuCoresFor (generation variant : String) : Nat :=
  if generation = "M1" then
    if variant = "base" then 8 else if variant = "Pro" then 16
    else if variant = "Max" then 32 else if variant = "Ultra" then 64 else 0
  else if generation = "M2" then
    if variant = "base" then 10 else if variant = "Pro" then 19
    else if variant = "Max" then 38 else if variant = "Ultra" then 76 else 0
  else if generation = "M3" then
    if variant = "base" then 10 else if variant = "Pro" then 18
    else if variant = "Max" then 40 else if variant = "Ultra" then 80 else 0
  else if generation = "M4" then
    if variant = "base" then 10 else if variant = "Pro" then 20
    else if variant = "Max" then 40 else if variant = "Ultra" then 80 else 0
  else 0

/-- The `NEURAL_CORES[generation] || 0` table. -/
def neuralCoresFor (generation : String) : Nat :=
  if generation = "M1" || generation = "M2" || generation = "M3"
      || generation = "M4" then 16
  else 0

/-- Result of `getAppleSiliconInfo`. -/
structure SiliconInfo where
  generation : String
  variant : String
  gpuCores : Nat
  neuralEngineCores : Nat
  deriving DecidableEq

/-- The all-unknown fallback of `getAppleSiliconInfo`. -/
def unknownSilicon : SiliconInfo :=
  { generation := "unknown", variant := "unknown",
    gpuCores := 0, neuralEngineCores := 0 }

/-- Embedding of `getAppleSiliconInfo`: off darwin/arm64, on a thrown
probe, or on a brand string the pattern does not match, every field falls
back to unknown/zero; otherwise the parsed generation/variant select the
core-count tables. -/
def getAppleSiliconInfo (env : OsEnv) : SiliconInfo :=
  if env.platform ≠ "darwin" || env.arch ≠ "arm64" then unknownSilicon
  else
    match env.brandProbe with
    | .err => unknownSilicon
    | .ok brand =>
      match searchAppleM brand with
      | none => unknownSilicon
      | some (generation, variant) =>
        { generation := generation, variant := variant,
          gpuCores := gpuCoresFor generation variant,
          neuralEngineCores := neuralCoresFor generation }

/-- The profiler's output record. -/
structure HardwareProfile where
  cpuModel : String
  cpuCores : Nat
  performanceCores : Nat
  efficiencyCores : Nat
  isAppleSilicon : Bool
  generation : String
  variant : String
  gpuCores : Nat
  neuralEngineCores : Nat
  totalMemoryGB : Nat
  availableMemoryGB : Nat
  unifiedMemory : Bool
  recommended : Recommended
  deriving DecidableEq

/-- Embedding of `detectHardware`. -/
def detectHardware (env : OsEnv) : HardwareProfile :=
  let isAppleSilicon := env.platform = "darwin" && env.arch = "arm64"
  let si := getAppleSiliconInfo env
  let pe := getPerformanceAndEfficiencyCores env
  { cpuModel := env.cpuModel
    cpuCores := env.cpuCount
    performanceCores := pe.1
    efficiencyCores := pe.2
    isAppleSilicon := isAppleSilicon
    generation := si.generation
    variant := si.variant
    gpuCores := si.gpuCores
    neuralEngineCores := si.neuralEngineCores
    totalMemoryGB := env.totalMemoryGB
    availableMemoryGB := env.availableMemoryGB
    unifiedMemory := isAppleSilicon
    recommended := calculateOptimalSettings env.totalMemoryGB si.gpuCores
      pe.1 si.generation si.variant }

/-- Embedding of `HardwareManager.getProfile`: returns the cached profile
when one exists and computes it from the environment otherwise (the cache
is threaded explicitly in place of the instance field). -/
def getProfile (cache : Option HardwareProfile) (env : OsEnv) : HardwareProfile :=
  match cache with
  | some p => p
  | none => detectHardware env

end Hardware

/-! ## Process supervisor (`ElectronLlamaServerManager`) -/

namespace LlamaServer

/-- Embedding of the `LaunchOptions` record. Optional string fields are
`Option String`; `multimodal = false` is the destructuring default applied
in `launchServer`. -/
structure LaunchOptions where
  id : String
  modelPath : String
  multimodal : Bool := false
  mmprojPath : Option String := none
  port : Option String := none
  contextSize : Option Nat := none
  gpuLayers : Option Nat := none
  threads : Option Nat := none
  batchSize : Option Nat := none
  deriving DecidableEq

/-- Lookup in a JS `Map` modelled as an association list. -/
def lookupA {α : Type} : List (String × α) → String → Option α
  | [], _ => none
  | (k, v) :: rest, key => if k = key then some v else lookupA rest key

/-- `Map.delete`. -/
def eraseA {α : Type} (l : List (String × α)) (key : String) :
    List (String × α) :=
  l.filter (fun p => p.1 ≠ key)

/-- `Map.set` (replaces any existing binding for the key). -/
def setA {α : Type} (l : List (String × α)) (key : String) (v : α) :
    List (String × α) :=
  (key, v) :: eraseA l key

/-- The mutable state of an `ElectronLlamaServerManager` instance: the
three per-session maps, plus two counters that give fresh identities to
spawned processes and to launch-outcome promises (promises and child
process handles are modelled by such identities; `spawned` doubles as a
count of process starts performed). -/
structure SupState where
  launchOptions : List (String × LaunchOptions) := []
  processes : List (String × Nat) := []
  loading : List (String × Nat) := []
  nextPromise : Nat := 0
  spawned : Nat := 0
  deriving DecidableEq

/-- Embedding of `launchServer` up to its synchronous effects on the
supervisor state: if a launch for the id is in flight, the very same
promise is returned and nothing changes; otherwise a process is started
(`execFile`), registered by `handleProcess` (`processes.set`), and the new
pending promise is recorded (`loading.set`). `launchOptions` is written
only later, by the readiness handler, not here. Returns the resulting
state and the promise handed to the caller. -/
def launchServer (s : SupState) (options : LaunchOptions) : SupState × Nat :=
  match lookupA s.loading options.id with
  | some p => (s, p)
  | none =>
    let pid := s.nextPromise
    ({ launchOptions := s.launchOptions
       processes := setA s.processes options.id s.spawned
       loading := setA s.loading options.id pid
       nextPromise := s.nextPromise + 1
       spawned := s.spawned + 1 }, pid)

/-- Embedding of the `close` listener installed by `handleProcess`
(`llama-server.ts:162-173`): the process and in-flight entries for the id
are deleted; then, exactly when the termination signal is `SIGSEGV` and
`launchOptions` still holds an entry for the id, `launchServer` is
re-invoked with that retained entry. The second component is the list of
option records passed to such re-invocations (so its length counts the
relaunches this close event performed). -/
def closeHandler (s : SupState) (id : String) (_code : Option Int)
    (signal : Option String) : SupState × List LaunchOptions :=
  let s1 : SupState :=
    { s with processes := eraseA s.processes id, loading := eraseA s.loading id }
  if signal = some "SIGSEGV" then
    match lookupA s1.launchOptions id with
    | some opts => ((launchServer s1 opts).1, [opts])
    | none => (s1, [])
  else (s1, [])

/-- Embedding of `cleanupProcess`: when a process handle exists for the id
it is killed (an external effect) and the process and in-flight entries
are deleted; with no process entry the method does nothing at all. -/
def cleanupProcess (s : SupState) (id : String) : SupState :=
  match lookupA s.processes id with
  | some _ =>
    { s with processes := eraseA s.processes id, loading := eraseA s.loading id }
  | none => s

/-- Embedding of `close`: every managed process is killed, then the
process map and the in-flight map are cleared. -/
def close (s : SupState) : SupState :=
  { s with processes := [], loading := [] }

/-- The settlement state of a launch-outcome promise. A rejection carries
the `err` of the `execFile` callback, i.e. the exit code and signal. -/
inductive PromiseState : Type
  | pending
  | resolvedOk
  | rejected (code : Option Int) (signal : Option String)
  deriving DecidableEq

/-- Node's `execFile` callback error for a process that ran and then
exited: `err` is `null` exactly when the process exited with code 0 and no
signal; otherwise `err` carries the exit code and signal. -/
def execFileErr (code : Option Int) (signal : Option String) :
    Option (Option Int × Option String) :=
  if code = some 0 ∧ signal = none then none else some (code, signal)

/-- Embedding of the `execFile` callback body in `launchServer`
(`llama-server.ts:123-129`): `if (err) reject(err)` — a non-null error
rejects a still-pending promise; a null error settles nothing. -/
def execFileCallback (err : Option (Option Int × Option String))
    (p : PromiseState) : PromiseState :=
  match err, p with
  | some e, .pending => .rejected e.1 e.2
  | _, _ => p

/-- The launch outcome after the process exits with the given code and
signal while the promise is still pending (the readiness sentinel was
never observed). -/
def exitBeforeSentinel (code : Option Int) (signal : Option String) :
    PromiseState :=
  execFileCallback (execFileErr code signal) .pending

/-- The fixed URL `getModelParameters` fetches. -/
def modelJsonUrl : String := "http://127.0.0.1:8080/model.json"

/-- The fixed URL `encode` posts to. -/
def tokenizeUrl : String := "http://127.0.0.1:8080/tokenize"

/-- The unconditional head of the engine argument list built by
`launchServer`. -/
def baseArgs (o : LaunchOptions) (ctx gpu thr batch : Nat) : List String :=
  ["-m", o.modelPath, "-c", toString ctx, "-ngl", toString gpu,
   "-t", toString thr, "-b", toString batch]

/-- The `--mmproj` part: appended when `multimodal && mmprojPath` is
truthy, i.e. the flag is set and the path is a nonempty string. -/
def mmprojArgs (o : LaunchOptions) : List String :=
  if o.multimodal then
    match o.mmprojPath with
    | some p => if p = "" then [] else ["--mmproj", p]
    | none => []
  else []

/-- The `--port` part: appended when `port` is truthy, i.e. present and
nonempty. -/
def portArgs (o : LaunchOptions) : List String :=
  match o.port with
  | some p => if p = "" then [] else ["--port", p]
  | none => []

/-- The full engine command line built by `launchServer`
(`llama-server.ts:103-120`), given the override-resolved effective
values. -/
def buildArgs (o : LaunchOptions) (ctx gpu thr batch : Nat) : List String :=
  baseArgs o ctx gpu thr batch ++ mmprojArgs o ++ portArgs o

end LlamaServer

/-! ## Helper lemmas on the map model -/

namespace LlamaServer

theorem lookupA_setA_self {α : Type} (l : List (String × α)) (k : String) (v : α) :
    lookupA (setA l k v) k = some v := by
  simp [setA, lookupA]

theorem lookupA_eraseA_self {α : Type} (l : List (String × α)) (k : String) :
    lookupA (eraseA l k) k = none := by
  induction l with
  | nil => rfl
  | cons p rest ih =>
    by_cases h : p.1 = k
    · simpa [eraseA, List.filter_cons, h] using ih
    · simpa [eraseA, List.filter_cons, h, lookupA] using ih

/-- Concrete options record used to exercise the supervisor theorems. -/
def oA : LaunchOptions := { id := "a", modelPath := "/models/m.gguf" }

/-- Concrete supervisor state with a live session `"a"`: a retained
options entry, a process handle, and an in-flight launch promise. -/
def s7 : SupState :=
  { launchOptions := [("a", oA)], processes := [("a", 0)],
    loading := [("a", 5)], nextPromise := 6, spawned := 1 }

/-- The empty supervisor state. -/
def s0 : SupState := {}

end LlamaServer

/-! ## Claim theorems -/

open LlamaServer Hardware

/-- C3: if a launch for the session id is already in flight, `launchServer`
returns the very same in-flight promise and leaves the whole supervisor
state (including the count of started processes) unchanged; and when no
launch is in flight, a second call made after the first observes the first
call's promise and state, with exactly one process start between the two
calls. -/
theorem c3_launch_dedup (s : SupState) (o : LaunchOptions) :
    (∀ p, lookupA s.loading o.id = some p → launchServer s o = (s, p)) ∧
    (lookupA s.loading o.id = none →
      launchServer (launchServer s o).1 o = launchServer s o ∧
      (launchServer s o).1.spawned = s.spawned + 1) := by
  constructor
  · intro p hp
    simp [launchServer, hp]
  · intro h
    simp [launchServer, h, lookupA_setA_self]

/-- Witness for C3 at concrete states: a call with promise 5 in flight for
`"a"` returns that promise untouched, and after a fresh first call the
second call is absorbed by the first. -/
theorem c3_launch_dedup_witness :
    launchServer s7 oA = (s7, 5) ∧
    launchServer (launchServer s0 oA).1 oA = launchServer s0 oA :=
  ⟨(c3_launch_dedup s7 oA).1 5 rfl, ((c3_launch_dedup s0 oA).2 rfl).1⟩

/-- C2: when a managed process closes with signal `SIGSEGV` and options
are still retained for the id, the close handler re-invokes `launchServer`
exactly once with exactly the retained options; for every other
termination (other signal, or no signal, or mere exit code) no relaunch
happens and the process and in-flight entries for the id are removed. -/
theorem c2_crash_restart (s : SupState) (id : String) (code : Option Int)
    (sig : Option String) :
    (∀ o, sig = some "SIGSEGV" → lookupA s.launchOptions id = some o →
      (closeHandler s id code sig).2 = [o]) ∧
    ((sig = some "SIGSEGV" → lookupA s.launchOptions id = none) →
      (closeHandler s id code sig).2 = [] ∧
      lookupA (closeHandler s id code sig).1.processes id = none ∧
      lookupA (closeHandler s id code sig).1.loading id = none) := by
  constructor
  · intro o hsig hopt
    simp [closeHandler, hsig, hopt]
  · intro h
    by_cases hsig : sig = some "SIGSEGV"
    · simp [closeHandler, hsig, h hsig, lookupA_eraseA_self]
    · simp [closeHandler, hsig, lookupA_eraseA_self]

/-- Witness for C2: a `SIGSEGV` close of session `"a"` with retained
options relaunches once with those options; a `SIGTERM` close relaunches
nothing and clears the session's process and in-flight entries. -/
theorem c2_crash_restart_witness :
    (closeHandler s7 "a" none (some "SIGSEGV")).2 = [oA] ∧
    ((closeHandler s7 "a" none (some "SIGTERM")).2 = [] ∧
      lookupA (closeHandler s7 "a" none (some "SIGTERM")).1.processes "a" = none ∧
      lookupA (closeHandler s7 "a" none (some "SIGTERM")).1.loading "a" = none) :=
  ⟨(c2_crash_restart s7 "a" none (some "SIGSEGV")).1 oA rfl rfl,
   (c2_crash_restart s7 "a" none (some "SIGTERM")).2 (by decide)⟩

/-- C6 counterexample: a process that exits with code 0 (no signal) before
the readiness sentinel leaves the launch outcome pending forever — the
`execFile` callback receives a null error and neither resolves nor
rejects, contradicting the claim that the outcome always resolves as a
failure and never remains unsettled. -/
theorem c6_counterexample :
    exitBeforeSentinel (some 0) none = PromiseState.pending := rfl

/-- C6 (amended): if the process exits before the sentinel with a nonzero
exit code or due to a signal, the launch outcome is rejected carrying the
exit information; only the clean exit-code-0, no-signal case settles
nothing. -/
theorem c6_exit_rejects (code : Option Int) (sig : Option String)
    (h : ¬(code = some 0 ∧ sig = none)) :
    exitBeforeSentinel code sig = PromiseState.rejected code sig := by
  simp [exitBeforeSentinel, execFileErr, h, execFileCallback]

/-- Witness for C6's amended theorem: exit code 1 rejects with that code. -/
theorem c6_exit_rejects_witness :
    exitBeforeSentinel (some 1) none = PromiseState.rejected (some 1) none :=
  c6_exit_rejects (some 1) none (by decide)

/-- C7 counterexample: after `cleanupProcess "a"` on a state holding a
session `"a"`, and likewise after `close`, the retained `launchOptions`
entry for `"a"` is still present — neither path removes it, contradicting
the claim that all three per-session entries are gone. -/
theorem c7_counterexample :
    lookupA (cleanupProcess s7 "a").launchOptions "a" = some oA ∧
    lookupA (close s7).launchOptions "a" = some oA := by
  constructor <;> rfl

/-- C7 (amended): `cleanupProcess` on a session with a live process
removes the process-handle and in-flight entries but leaves the
`launchOptions` map untouched; `close` empties the process and in-flight
maps but also leaves `launchOptions` untouched. -/
theorem c7_cleanup_state (s : SupState) (id : String)
    (h : (lookupA s.processes id).isSome) :
    lookupA (cleanupProcess s id).processes id = none ∧
    lookupA (cleanupProcess s id).loading id = none ∧
    (cleanupProcess s id).launchOptions = s.launchOptions ∧
    (close s).processes = [] ∧ (close s).loading = [] ∧
    (close s).launchOptions = s.launchOptions := by
  obtain ⟨v, hv⟩ := Option.isSome_iff_exists.mp h
  simp [cleanupProcess, hv, close, lookupA_eraseA_self]

/-- Witness for C7's amended theorem at the concrete state `s7`. -/
theorem c7_cleanup_state_witness :
    lookupA (cleanupProcess s7 "a").processes "a" = none ∧
    lookupA (cleanupProcess s7 "a").loading "a" = none ∧
    (cleanupProcess s7 "a").launchOptions = s7.launchOptions ∧
    (close s7).processes = [] ∧ (close s7).loading = [] ∧
    (close s7).launchOptions = s7.launchOptions :=
  c7_cleanup_state s7 "a" (by decide)

/-- Options record whose port is present but the empty string. -/
def oEmptyPort : LaunchOptions :=
  { id := "b", modelPath := "/models/m.gguf", port := some "" }

/-- C10 counterexample: a supplied port that is the empty string is
present yet truthiness-filtered out, so no `--port` argument is appended —
contradicting the claim's "a --port argument is appended when present". -/
theorem c10_counterexample :
    oEmptyPort.port = some "" ∧ portArgs oEmptyPort = [] := by
  constructor <;> rfl

/-- C10 (amended): `getModelParameters` and `encode` target the fixed
loopback endpoint on port 8080, built from no per-session data; the
configured port feeds only the engine command line, where `--port` is
appended exactly when the supplied port string is nonempty. -/
theorem c10_fixed_endpoint (o : LaunchOptions) (ctx gpu thr batch : Nat) :
    modelJsonUrl = "http://127.0.0.1:8080/model.json" ∧
    tokenizeUrl = "http://127.0.0.1:8080/tokenize" ∧
    buildArgs o ctx gpu thr batch =
      baseArgs o ctx gpu thr batch ++ mmprojArgs o ++ portArgs o ∧
    (o.port = none → portArgs o = []) ∧
    (∀ p, o.port = some p → p ≠ "" → portArgs o = ["--port", p]) ∧
    (∀ p, o.port = some p → p = "" → portArgs o = []) := by
  refine ⟨rfl, rfl, rfl, ?_, ?_, ?_⟩
  · intro h; simp [portArgs, h]
  · intro p hp hne; simp [portArgs, hp, hne]
  · intro p hp he; simp [portArgs, hp, he]

/-- Witness for C10's amended theorem: a nonempty port is appended, an
absent port is not. -/
theorem c10_fixed_endpoint_witness :
    portArgs { id := "c", modelPath := "/m", port := some "8123" } = ["--port", "8123"] ∧
    portArgs oA = [] :=
  ⟨((c10_fixed_endpoint { id := "c", modelPath := "/m", port := some "8123" }
      0 0 0 0).2.2.2.2.1) "8123" rfl (by decide),
   (c10_fixed_endpoint oA 0 0 0 0).2.2.2.1 rfl⟩

/-- C4: the planner realizes the tier table exactly — GPU layers and
context window per memory tier (with 127 vs 128 GB falling into adjacent
tiers), worker threads `max(4, performanceCores − 2)`, and maximum model
size `⌊0.6 × totalMemoryGB⌋` (= `6n/10` on whole GB). -/
theorem c4_planner_tiers (n gc pc : Nat) (gen var : String) :
    (128 ≤ n → (calculateOptimalSettings n gc pc gen var).gpuLayers = 99 ∧
      (calculateOptimalSettings n gc pc gen var).contextSize = 131072) ∧
    (96 ≤ n → n < 128 → (calculateOptimalSettings n gc pc gen var).gpuLayers = 80 ∧
      (calculateOptimalSettings n gc pc gen var).contextSize = 65536) ∧
    (64 ≤ n → n < 96 → (calculateOptimalSettings n gc pc gen var).gpuLayers = 60 ∧
      (calculateOptimalSettings n gc pc gen var).contextSize = 32768) ∧
    (32 ≤ n → n < 64 → (calculateOptimalSettings n gc pc gen var).gpuLayers = 40 ∧
      (calculateOptimalSettings n gc pc gen var).contextSize = 16384) ∧
    (16 ≤ n → n < 32 → (calculateOptimalSettings n gc pc gen var).gpuLayers = 20 ∧
      (calculateOptimalSettings n gc pc gen var).contextSize = 8192) ∧
    (n < 16 → (calculateOptimalSettings n gc pc gen var).gpuLayers = 4 ∧
      (calculateOptimalSettings n gc pc gen var).contextSize = 4096) ∧
    (calculateOptimalSettings n gc pc gen var).cpuThreads = max 4 (pc - 2) ∧
    (calculateOptimalSettings n gc pc gen var).maxModelSizeGB = 6 * n / 10 := by
  refine ⟨?_, ?_, ?_, ?_, ?_, ?_, ?_, ?_⟩ <;>
    simp only [calculateOptimalSettings] <;> intros <;>
    first
      | omega
      | (constructor <;> split_ifs <;> omega)

/-- Witness for C4 on the 127/128 GB boundary (and a low-memory value):
128 GB takes the top tier, 127 GB the next one down. -/
theorem c4_planner_tiers_witness :
    ((calculateOptimalSettings 128 40 12 "M4" "Max").gpuLayers = 99 ∧
      (calculateOptimalSettings 128 40 12 "M4" "Max").contextSize = 131072) ∧
    ((calculateOptimalSettings 127 40 12 "M4" "Max").gpuLayers = 80 ∧
      (calculateOptimalSettings 127 40 12 "M4" "Max").contextSize = 65536) ∧
    ((calculateOptimalSettings 8 10 8 "M1" "base").gpuLayers = 4 ∧
      (calculateOptimalSettings 8 10 8 "M1" "base").contextSize = 4096) :=
  ⟨(c4_planner_tiers 128 40 12 "M4" "Max").1 (by decide),
   (c4_planner_tiers 127 40 12 "M4" "Max").2.1 (by decide) (by decide),
   (c4_planner_tiers 8 10 8 "M1" "base").2.2.2.2.2.1 (by decide)⟩

/-- C5 counterexample: with 8 GB of memory (below 16) an M4 Max still
gets batch size 2048, not the claimed 512 — the planner's batch size never
consults the memory tier. -/
theorem c5_counterexample :
    (calculateOptimalSettings 8 10 8 "M4" "Max").batchSize = 2048 ∧
    (calculateOptimalSettings 8 10 8 "M4" "Max").batchSize ≠ 512 := by
  constructor <;> decide

/-- C5 (amended): the recommended batch size is a function of the chip
alone, for every memory size — 2048 for a Max/Ultra variant of the M4
generation, 1024 for a Max/Ultra variant of any other generation, and 512
for every non-Max/Ultra variant. -/
theorem c5_batch_by_chip (n gc pc : Nat) (gen var : String) :
    ((var = "Max" ∨ var = "Ultra") → gen = "M4" →
      (calculateOptimalSettings n gc pc gen var).batchSize = 2048) ∧
    ((var = "Max" ∨ var = "Ultra") → gen ≠ "M4" →
      (calculateOptimalSettings n gc pc gen var).batchSize = 1024) ∧
    (var ≠ "Max" → var ≠ "Ultra" →
      (calculateOptimalSettings n gc pc gen var).batchSize = 512) := by
  refine ⟨?_, ?_, ?_⟩
  · rintro (h | h) hg <;> simp [calculateOptimalSettings, h, hg]
  · rintro (h | h) hg <;> simp [calculateOptimalSettings, h, hg]
  · intro h1 h2; simp [calculateOptimalSettings, h1, h2]

/-- Witness for C5's amended theorem on all three chip classes. -/
theorem c5_batch_by_chip_witness :
    (calculateOptimalSettings 8 10 8 "M4" "Ultra").batchSize = 2048 ∧
    (calculateOptimalSettings 128 40 12 "M2" "Max").batchSize = 1024 ∧
    (calculateOptimalSettings 128 10 8 "M4" "Pro").batchSize = 512 :=
  ⟨(c5_batch_by_chip 8 10 8 "M4" "Ultra").1 (Or.inr rfl) rfl,
   (c5_batch_by_chip 128 40 12 "M2" "Max").2.1 (Or.inl rfl) (by decide),
   (c5_batch_by_chip 128 10 8 "M4" "Pro").2.2 (by decide) (by decide)⟩

/-- C8: with every other input held fixed, each of the five recommended
values is monotonically non-decreasing in total memory. -/
theorem c8_monotone (n m gc pc : Nat) (gen var : String) (h : n ≤ m) :
    (calculateOptimalSettings n gc pc gen var).gpuLayers ≤
      (calculateOptimalSettings m gc pc gen var).gpuLayers ∧
    (calculateOptimalSettings n gc pc gen var).contextSize ≤
      (calculateOptimalSettings m gc pc gen var).contextSize ∧
    (calculateOptimalSettings n gc pc gen var).batchSize ≤
      (calculateOptimalSettings m gc pc gen var).batchSize ∧
    (calculateOptimalSettings n gc pc gen var).maxModelSizeGB ≤
      (calculateOptimalSettings m gc pc gen var).maxModelSizeGB ∧
    (calculateOptimalSettings n gc pc gen var).cpuThreads ≤
      (calculateOptimalSettings m gc pc gen var).cpuThreads := by
  refine ⟨?_, ?_, ?_, ?_, ?_⟩ <;>
    simp only [calculateOptimalSettings] <;>
    first
      | omega
      | (split_ifs <;> omega)

/-- Witness for C8 across the widest memory gap. -/
theorem c8_monotone_witness :
    (calculateOptimalSettings 8 40 12 "M4" "Max").gpuLayers ≤
      (calculateOptimalSettings 256 40 12 "M4" "Max").gpuLayers :=
  (c8_monotone 8 256 40 12 "M4" "Max" (by decide)).1

/-- Non-darwin probe environment used against C9. -/
def envLinux : OsEnv :=
  { platform := "linux", arch := "x64", cpuModel := "SomeCPU", cpuCount := 8,
    totalMemoryGB := 32, availableMemoryGB := 16,
    brandProbe := .err, perfProbe := .err, effProbe := .err }

/-- C9 counterexample: on a non-darwin host with 8 logical cores the
profile reports all 8 as performance cores and 0 efficiency cores — not
the claimed even 4/4 split of the portable default. -/
theorem c9_counterexample :
    (getProfile none envLinux).performanceCores = 8 ∧
    (getProfile none envLinux).efficiencyCores = 0 ∧
    (getProfile none envLinux).performanceCores ≠ envLinux.cpuCount / 2 := by
  refine ⟨rfl, rfl, by decide⟩

/-- C9 (amended): `getProfile` is total over every probe outcome; off
darwin the profile counts every logical core as a performance core with
zero efficiency cores and is non-unified-memory; the even split is the
darwin-only fallback for a failed core probe; unified memory is reported
exactly on darwin/arm64. -/
theorem c9_probe_fallback (env : OsEnv) :
    getProfile none env = detectHardware env ∧
    (env.platform ≠ "darwin" →
      (detectHardware env).performanceCores = env.cpuCount ∧
      (detectHardware env).efficiencyCores = 0 ∧
      (detectHardware env).unifiedMemory = false) ∧
    (env.platform = "darwin" → (env.perfProbe = .err ∨ env.effProbe = .err) →
      (detectHardware env).performanceCores = env.cpuCount / 2 ∧
      (detectHardware env).efficiencyCores = env.cpuCount / 2) ∧
    (detectHardware env).unifiedMemory =
      (env.platform = "darwin" && env.arch = "arm64") := by
  refine ⟨rfl, ?_, ?_, rfl⟩
  · intro h
    simp [detectHardware, getPerformanceAndEfficiencyCores, h]
  · intro h hp
    rcases hp with hp | hp <;>
      cases hperf : env.perfProbe <;> cases heff : env.effProbe <;>
      simp_all [detectHardware, getPerformanceAndEfficiencyCores, h]

/-- Witness for C9's amended theorem: the linux environment takes the
all-performance branch, a darwin environment with failing probes takes
the even split. -/
theorem c9_probe_fallback_witness :
    ((detectHardware envLinux).performanceCores = envLinux.cpuCount ∧
      (detectHardware envLinux).efficiencyCores = 0 ∧
      (detectHardware envLinux).unifiedMemory = false) ∧
    ((detectHardware { envLinux with platform := "darwin" }).performanceCores =
      envLinux.cpuCount / 2 ∧
      (detectHardware { envLinux with platform := "darwin" }).efficiencyCores =
      envLinux.cpuCount / 2) :=
  ⟨(c9_probe_fallback envLinux).2.1 (by decide),
   (c9_probe_fallback { envLinux with platform := "darwin" }).2.2.1 rfl
     (Or.inl rfl)⟩

theorem foldl_processChunk (chunks : List Chunk) (acc : Bool) :
    chunks.foldl processChunk acc = (acc || chunks.any chunkHasSentinel) := by
  induction chunks generalizing acc with
  | nil => simp
  | cons c cs ih =>
    cases acc <;> simp [processChunk, ih, Bool.or_assoc]

/-- First chunk of a readiness sentinel line split mid-key. -/
def sentinelChunk1 : Chunk := [lbrace, quoteChar, 'm', 'e', 's', 's']

/-- Second chunk completing the sentinel line and terminating it with a
newline. -/
def sentinelChunk2 : Chunk :=
  ['a','g','e', quoteChar, ':', quoteChar] ++ sentinelChars ++
    [quoteChar, rbrace, '\n']

/-- The complete readiness sentinel line
`{"message":"HTTP server listening"}`. -/
def sentinelFullLine : Chunk :=
  lbrace :: quoteChar :: messageKey ++ [quoteChar, ':', quoteChar] ++
    sentinelChars ++ [quoteChar, rbrace]

/-- C1 counterexample: the two chunks concatenate to exactly the sentinel
record followed by a newline terminator — a complete newline-terminated
line that parses with `message = "HTTP server listening"` — yet the
handler, which re-splits each chunk separately and buffers nothing across
chunks, never resolves the launch: recognition depends on how the byte
stream is split into chunks. -/
theorem c1_counterexample :
    sentinelChunk1 ++ sentinelChunk2 = sentinelFullLine ++ ['\n'] ∧
    isSentinelLine sentinelFullLine = true ∧
    processChunks [sentinelChunk1, sentinelChunk2] = false := by
  refine ⟨by decide, by decide, by decide⟩

/-- C1 (amended): the launch outcome resolves successfully exactly when
some single chunk, split on newlines by itself, contains a nonempty
segment that parses as a record whose `message` field is the readiness
sentinel. Chunks are processed in arrival order, a non-parsing segment
never causes failure (there is no failure path in the handler), and after
the sentinel the handler is detached so resolution is permanent — but no
partial-line buffering is performed across chunk boundaries, and a
trailing segment is inspected even without a newline terminator. -/
theorem c1_readiness (chunks : List Chunk) :
    processChunks chunks = true ↔
      ∃ c ∈ chunks, ∃ l ∈ splitOnNl c, l ≠ [] ∧ isSentinelLine l = true := by
  simp [processChunks, foldl_processChunk, chunkHasSentinel,
    List.any_eq_true]

end AiStudio
